import Mathlib

/-!
Verification development for the animal-study-classifier text pipeline.

The Python sources (`text_fetcher.py`, `animal_evidence_extractor.py`,
`ethics_extractor.py`) are shallowly embedded: strings are `List Char`,
the regular expressions of the extractors are transcribed into a small
regex AST with a backtracking matcher that mirrors Python `re` semantics
(leftmost match, left-biased alternation, greedy quantifiers, `findall`
returning capture groups), and the networked fetch pipeline is a pure
function of an environment record holding each upstream call's outcome.
`\w` and case folding are modelled for ASCII text, which is the alphabet
the pipeline's patterns and the concrete inputs below use.
-/

abbrev Str := List Char

/-- ASCII lower-casing, as Python `str.lower` acts on ASCII. -/
def lowerChar (c : Char) : Char :=
  if 65 ≤ c.toNat ∧ c.toNat ≤ 90 then Char.ofNat (c.toNat + 32) else c

/-- ASCII upper-casing (used for case-insensitive character classes). -/
def upperChar (c : Char) : Char :=
  if 97 ≤ c.toNat ∧ c.toNat ≤ 122 then Char.ofNat (c.toNat - 32) else c

def lowerStr (s : Str) : Str := s.map lowerChar

/-- Python regex `\w` on ASCII: letters, digits, underscore. -/
def wordChar (c : Char) : Bool :=
  (48 ≤ c.toNat && c.toNat ≤ 57) || (65 ≤ c.toNat && c.toNat ≤ 90) ||
  (97 ≤ c.toNat && c.toNat ≤ 122) || c.toNat == 95

/-- Python `\s` / `str.strip` whitespace set. -/
def pySpace (c : Char) : Bool :=
  c == ' ' || c == '\t' || c == '\n' || c == '\r' || c == '\x0b' || c == '\x0c'

/-- Python `str.strip()`. -/
def pyStrip (s : Str) : Str :=
  ((s.dropWhile pySpace).reverse.dropWhile pySpace).reverse

def isWordAt (s : Str) (i : Nat) : Bool :=
  match s.get? i with
  | some c => wordChar c
  | none => false

/-- Python regex `\b` holds at position `i` of `s` (string edges are non-word). -/
def boundaryAt (s : Str) (i : Nat) : Bool :=
  (if i = 0 then false else isWordAt s (i - 1)) != isWordAt s i

/-- Python `needle in hay` (substring containment). -/
def containsSub (hay needle : Str) : Bool :=
  match hay with
  | [] => needle.isEmpty
  | _ :: t => needle.isPrefixOf hay || containsSub t needle

/-- Python `" ".join`, on a list of strings. -/
def joinSp : List Str → Str
  | [] => []
  | [t] => t
  | t :: t' :: ts => t ++ ' ' :: joinSp (t' :: ts)

/-- Join with an arbitrary separator, as Python `sep.join`. -/
def joinWith (sep : Str) : List Str → Str
  | [] => []
  | [t] => t
  | t :: t' :: ts => t ++ sep ++ joinWith sep (t' :: ts)

/-- `re.search(rf'\b{re.escape(keyword)}\b', sentence, re.I)` as a Boolean:
the keyword occurs literally (case-insensitively) at some position with a
word boundary on both ends. -/
def wholeWordSearch (sentence kw : Str) : Bool :=
  (List.range (sentence.length + 1)).any fun i =>
    lowerStr ((sentence.drop i).take kw.length) == lowerStr kw &&
    boundaryAt sentence i && boundaryAt sentence (i + kw.length)

/-! Sentence splitting: `re.split(r'[.!?]+', text)` splits at maximal runs
of sentence terminators.  `splitSentAux` is the state in the middle of a
fragment (accumulator reversed), `splitStart` the state inside a
terminator run / at a fragment start. -/

def isTerm (c : Char) : Bool := c == '.' || c == '!' || c == '?'

mutual
def splitSentAux : Str → Str → List Str
  | [], acc => [acc.reverse]
  | c :: rest, acc =>
    if isTerm c then acc.reverse :: splitStart rest
    else splitSentAux rest (c :: acc)

def splitStart : Str → List Str
  | [] => [[]]
  | c :: rest =>
    if isTerm c then splitStart rest
    else splitSentAux rest [c]
end

/-- `re.split(r'[.!?]+', text)`. -/
def splitSent (t : Str) : List Str := splitSentAux t []

/-- The section-type classifier shared by the JATS, TEI and Elsevier
parsers of `text_fetcher.py`: ordered substring checks on the lowered
heading. -/
def classifySectionType (name : Str) : String :=
  let l := lowerStr name
  if containsSub l "method".data || containsSub l "material".data then "methods"
  else if containsSub l "result".data || containsSub l "finding".data then "results"
  else if containsSub l "discussion".data || containsSub l "conclusion".data then "discussion"
  else if containsSub l "introduction".data || containsSub l "background".data then "introduction"
  else "body"

/-! A small regex AST covering exactly the constructs used by the
patterns in `animal_evidence_extractor.py` and `ethics_extractor.py`:
literals, character classes (as inclusive ranges), `\b`, `\w`, `\s`,
concatenation, left-biased alternation, greedy `?` and `*`, and
numbered capturing groups.  The matcher enumerates candidate matches in
Python's backtracking priority order; the head of the list is the match
Python's engine reports. -/

inductive Re where
  | eps : Re
  | lit : Char → Re
  | cls : List (Char × Char) → Re
  | wordB : Re
  | wch : Re
  | sp : Re
  | cat : Re → Re → Re
  | alt : Re → Re → Re
  | opt : Re → Re
  | star : Re → Re
  | grp : Nat → Re → Re
deriving Repr

/-- Case-possibly-insensitive literal comparison (pattern char vs subject char). -/
def eqCharCI (ci : Bool) (c d : Char) : Bool :=
  c == d || (ci && lowerChar c == lowerChar d)

/-- Membership of a subject char in a class of ranges, honouring `re.I`. -/
def charInCls (ci : Bool) (d : Char) (rs : List (Char × Char)) : Bool :=
  let inR (c : Char) := rs.any fun p => p.1.toNat ≤ c.toNat && c.toNat ≤ p.2.toNat
  inR d || (ci && (inR (lowerChar d) || inR (upperChar d)))

/-- Captured group spans: (group index, start, stop), most recent first. -/
abbrev GrpM := List (Nat × Nat × Nat)

/-- All ways `re` can match `s` starting at `i`, as (end position, groups),
in Python backtracking priority order.  `fuel` bounds the call depth; it is
instantiated large enough below that it is never exhausted. -/
def mtch (ci : Bool) (s : Str) : Nat → Re → Nat → GrpM → List (Nat × GrpM)
  | 0, _, _, _ => []
  | _ + 1, .eps, i, g => [(i, g)]
  | _ + 1, .lit c, i, g =>
    match s.get? i with
    | some d => if eqCharCI ci c d then [(i + 1, g)] else []
    | none => []
  | _ + 1, .cls rs, i, g =>
    match s.get? i with
    | some d => if charInCls ci d rs then [(i + 1, g)] else []
    | none => []
  | _ + 1, .wordB, i, g => if boundaryAt s i then [(i, g)] else []
  | _ + 1, .wch, i, g =>
    match s.get? i with
    | some d => if wordChar d then [(i + 1, g)] else []
    | none => []
  | _ + 1, .sp, i, g =>
    match s.get? i with
    | some d => if pySpace d then [(i + 1, g)] else []
    | none => []
  | f + 1, .cat a b, i, g =>
    (mtch ci s f a i g).flatMap fun p => mtch ci s f b p.1 p.2
  | f + 1, .alt a b, i, g => mtch ci s f a i g ++ mtch ci s f b i g
  | f + 1, .opt a, i, g => mtch ci s f a i g ++ [(i, g)]
  | f + 1, .star a, i, g =>
    (((mtch ci s f a i g).filter fun p => i < p.1).flatMap fun p =>
      mtch ci s f (.star a) p.1 p.2) ++ [(i, g)]
  | f + 1, .grp n a, i, g =>
    (mtch ci s f a i g).map fun p => (p.1, (n, i, p.1) :: p.2)

def reSize : Re → Nat
  | .eps | .lit _ | .cls _ | .wordB | .wch | .sp => 1
  | .cat a b | .alt a b => reSize a + reSize b + 1
  | .opt a | .star a | .grp _ a => reSize a + 1

def bigFuel (re : Re) (s : Str) : Nat := (s.length + 2) * (reSize re + 2) + 2

/-- A `findall` element: a plain string (0 or 1 groups) or a tuple of
group strings (2 or more groups). -/
inductive PyItem where
  | str : Str → PyItem
  | tup : List Str → PyItem
deriving DecidableEq, Repr

def sliceStr (s : Str) (a b : Nat) : Str := (s.drop a).take (b - a)

/-- The string of group `n` in a match, `''` when the group did not
participate (Python `findall` behaviour). -/
def grpStr (s : Str) (g : GrpM) (n : Nat) : Str :=
  match g.find? fun e => e.1 == n with
  | some e => sliceStr s e.2.1 e.2.2
  | none => []

def itemOf (ng : Nat) (s : Str) (i j : Nat) (g : GrpM) : PyItem :=
  if ng == 0 then .str (sliceStr s i j)
  else if ng == 1 then .str (grpStr s g 1)
  else .tup ((List.range ng).map fun k => grpStr s g (k + 1))

def scanGo (ci : Bool) (re : Re) (ng : Nat) (s : Str) : Nat → Nat → List PyItem
  | 0, _ => []
  | f + 1, i =>
    if i > s.length then []
    else
      match (mtch ci s (bigFuel re s) re i []).head? with
      | some (j, g) =>
        itemOf ng s i j g :: scanGo ci re ng s f (if i < j then j else i + 1)
      | none => scanGo ci re ng s f (i + 1)

/-- Python `pattern.findall(s)`. -/
def pyFindall (ci : Bool) (re : Re) (ng : Nat) (s : Str) : List PyItem :=
  scanGo ci re ng s (s.length + 2) 0

/-- Python `pattern.search(s) is not None`. -/
def pySearch (ci : Bool) (re : Re) (s : Str) : Bool :=
  (List.range (s.length + 1)).any fun i =>
    !(mtch ci s (bigFuel re s) re i []).isEmpty

/-! Combinators used to transcribe the source patterns. -/

/-- A literal word: each character a (case-folded) literal. -/
def w (s : String) : Re := s.data.foldr (fun c r => .cat (.lit c) r) .eps

def altL : List Re → Re
  | [] => .eps
  | [r] => r
  | r :: rest => .alt r (altL rest)

/-- `\s+` -/
def sp1 : Re := .cat .sp (.star .sp)

/-- `\s?` -/
def spOpt : Re := .opt .sp

/-- `[-\s]` -/
def dashWs : Re :=
  .cls [('-', '-'), (' ', ' '), ('\t', '\t'), ('\n', '\n'), ('\r', '\r'),
        ('\x0b', '\x0b'), ('\x0c', '\x0c')]

def catL : List Re → Re
  | [] => .eps
  | [r] => r
  | r :: rest => .cat r (catL rest)

def splitWordsAux : Str → Str → List Str
  | [], acc => [acc.reverse]
  | c :: rest, acc =>
    if c == ' ' then acc.reverse :: splitWordsAux rest []
    else splitWordsAux rest (c :: acc)

/-- A literal word, from a character list. -/
def wL (chars : Str) : Re := chars.foldr (fun c r => .cat (.lit c) r) .eps

/-- A phrase whose interword gaps are `\s+` (the `a\s+b` shape of the
source patterns). -/
def phr (s : String) : Re :=
  catL (((splitWordsAux s.data []).map wL).intersperse sp1)

/-- `\b ... \b` around a pattern. -/
def bnd (r : Re) : Re := .cat .wordB (.cat r .wordB)

/-- Capture group 1 (the outer group most source patterns carry). -/
def g1 (r : Re) : Re := .grp 1 r

/-! Transcriptions of the pattern tables.  Each definition mirrors one
compiled pattern of the Python sources; `ng` below records its number of
capturing groups, which drives `findall`'s output shape. -/

structure PatSpec where
  label : String
  re : Re
  ng : Nat
  ci : Bool
deriving Repr

def reRat : Re := bnd (.cat (w "rat") (.opt (.grp 1 (w "s"))))
def reMouse : Re := bnd (g1 (altL [w "mouse", w "mice"]))
def reZebrafish : Re := bnd (g1 (altL [w "zebrafish", phr "Danio rerio"]))
def reRabbit : Re := bnd (.cat (w "rabbit") (.opt (.grp 1 (w "s"))))
def rePig : Re := bnd (g1 (altL [.cat (w "pig") (.opt (.grp 2 (w "s"))), w "porcine", w "swine"]))
def reChicken : Re :=
  bnd (g1 (altL [.cat (w "chicken") (.opt (.grp 2 (w "s"))), phr "Gallus gallus", w "avian", w "poultry"]))
def reNhp : Re :=
  bnd (g1 (altL [w "macaque", w "marmoset", w "monkey",
    catL [w "non", .opt dashWs, w "human", sp1, w "primate"], w "rhesus", w "cynomolgus"]))
def reDog : Re := bnd (g1 (altL [.cat (w "dog") (.opt (.grp 2 (w "s"))), w "canine", w "beagle"]))
def reCatP : Re := bnd (g1 (altL [.cat (w "cat") (.opt (.grp 2 (w "s"))), w "feline"]))
def reSheep : Re := bnd (g1 (altL [w "sheep", w "ovine"]))
def reCow : Re := bnd (g1 (altL [.cat (w "cow") (.opt (.grp 2 (w "s"))), w "bovine", w "cattle"]))
def reHorse : Re := bnd (g1 (altL [.cat (w "horse") (.opt (.grp 2 (w "s"))), w "equine"]))
def reFish : Re := bnd (g1 (altL [w "fish", w "teleost", w "salmon", w "trout"]))
def reFrog : Re := bnd (g1 (altL [.cat (w "frog") (.opt (.grp 2 (w "s"))), w "Xenopus", w "amphibian"]))
def reBird : Re := bnd (g1 (altL [.cat (w "bird") (.opt (.grp 2 (w "s"))), w "avian", w "pigeon", w "sparrow"]))
def reReptile : Re := bnd (g1 (altL [.cat (w "reptile") (.opt (.grp 2 (w "s"))), w "lizard", w "snake", w "turtle"]))

/-- `self.species_patterns` of `InVivoDetector`, in insertion order. -/
def speciesPatterns : List PatSpec :=
  [⟨"rat", reRat, 1, true⟩, ⟨"mouse", reMouse, 1, true⟩, ⟨"zebrafish", reZebrafish, 1, true⟩,
   ⟨"rabbit", reRabbit, 1, true⟩, ⟨"pig", rePig, 2, true⟩, ⟨"chicken", reChicken, 2, true⟩,
   ⟨"nonhuman_primate", reNhp, 1, true⟩, ⟨"dog", reDog, 2, true⟩, ⟨"cat", reCatP, 2, true⟩,
   ⟨"sheep", reSheep, 1, true⟩, ⟨"cow", reCow, 2, true⟩, ⟨"horse", reHorse, 2, true⟩,
   ⟨"fish", reFish, 1, true⟩, ⟨"frog", reFrog, 2, true⟩, ⟨"bird", reBird, 2, true⟩,
   ⟨"reptile", reReptile, 2, true⟩]

def reSpragueDawley : Re := bnd (catL [w "Sprague", .opt dashWs, w "Dawley"])
def reWistar : Re := bnd (w "Wistar")
def reLongEvans : Re := bnd (catL [w "Long", .opt dashWs, w "Evans"])
def reC57 : Re := bnd (catL [w "C57BL", .opt (.lit '/'), w "6"])
def reBalbc : Re := bnd (catL [w "BALB", .opt (.lit '/'), w "c"])
def reRTgDI : Re := bnd (catL [w "rTg", .opt dashWs, w "DI"])
def reCD1 : Re := bnd (w "CD1")
def reICR : Re := bnd (w "ICR")

/-- `self.strain_patterns` of `InVivoDetector`. -/
def strainPatterns : List PatSpec :=
  [⟨"Sprague-Dawley", reSpragueDawley, 0, true⟩, ⟨"Wistar", reWistar, 0, true⟩,
   ⟨"Long-Evans", reLongEvans, 0, true⟩, ⟨"C57BL/6", reC57, 0, true⟩,
   ⟨"BALB/c", reBalbc, 0, true⟩, ⟨"rTg-DI", reRTgDI, 0, true⟩,
   ⟨"CD1", reCD1, 0, true⟩, ⟨"ICR", reICR, 0, true⟩]

def reExplicitInVivo : Re := bnd (catL [w "in", spOpt, w "vivo"])
def reInVivoStudy : Re := bnd (catL [w "in", spOpt, w "vivo", sp1, w "stud", altL [w "y", w "ies"]])
def reInVivoExperiment : Re :=
  bnd (catL [w "in", spOpt, w "vivo", sp1, w "experiment", .opt (.grp 1 (w "s"))])
def reInVivoModel : Re := bnd (catL [w "in", spOpt, w "vivo", sp1, w "model", .opt (.grp 1 (w "s"))])
def reAnesthesia : Re :=
  bnd (.cat (w "anesthet")
    (g1 (altL [catL [.lit 'i', .cls [('s', 's'), ('z', 'z')], w "ed"], w "ia", w "ic"])))
def reEuthanasia : Re :=
  bnd (.cat (g1 (altL [w "euthanis", w "euthaniz", w "sacrific", w "killed"])) (.star .wch))
def reInjections : Re :=
  bnd (catL [g1 (altL [w "intraperitoneal", w "i.p.", w "intravenous", w "i.v.",
    w "subcutaneous", w "s.c.", w "intramuscular", w "i.m.", w "intracerebral", w "i.c.",
    w "intracranial", w "intrahippocampal", w "intrastriatal", w "intraventricular"]),
    sp1, w "injection"])
def reSurgery : Re :=
  bnd (g1 (altL [w "surgery", w "surgical", w "stereotaxic", w "stereotactic", w "craniotomy",
    w "perfusion", w "transplantation", w "implantation", w "catheterization", w "cannulation",
    w "tracheotomy", w "laparotomy", w "thoracotomy"]))
def reBehavioralTests : Re :=
  bnd (g1 (altL [phr "Morris water maze", phr "open field", phr "elevated plus maze",
    w "rotarod", catL [w "T", spOpt, w "maze"], phr "radial arm maze",
    phr "novel object recognition", phr "fear conditioning", phr "passive avoidance",
    phr "active avoidance", phr "social interaction", phr "prepulse inhibition",
    phr "startle response", phr "grip strength", phr "balance beam", phr "wire hanging"]))
def rePhysiological : Re :=
  bnd (catL [g1 (altL [phr "blood pressure", phr "heart rate", phr "respiratory rate",
    phr "body temperature", phr "weight gain", phr "weight loss", phr "food intake",
    phr "water intake", phr "urine output", phr "fecal output", phr "glucose level",
    phr "insulin level", w "cholesterol", w "triglycerides", w "cytokines",
    phr "inflammatory markers"]),
    sp1, .grp 2 (altL [w "measurement", w "monitoring", w "assessment", w "analysis"])])
def reSampling : Re :=
  bnd (g1 (altL [phr "cerebrospinal fluid", w "CSF", phr "blood collection", phr "tail vein",
    phr "cardiac puncture", phr "orbital bleeding", phr "jugular vein", phr "carotid artery",
    phr "femoral vein", phr "saphenous vein", phr "urine collection", phr "fecal collection",
    phr "tissue biopsy", phr "organ removal", phr "brain extraction", phr "liver extraction",
    phr "kidney extraction", phr "spleen extraction", phr "lung extraction",
    phr "heart extraction"]))
def reHusbandry : Re :=
  bnd (g1 (altL [w "housed", w "housing", w "cage", w "caging",
    catL [w "temperature", dashWs, w "controlled"], catL [w "humidity", dashWs, w "controlled"],
    catL [w "12", .opt dashWs, w "h", sp1, w "light"],
    catL [w "12", .opt dashWs, w "h", sp1, w "dark"],
    catL [w "light", dashWs, w "cycle"], catL [w "dark", dashWs, w "cycle"],
    w "diet", w "feeding", w "water", w "bedding", w "enrichment", phr "social isolation",
    catL [w "group", sp1, w "housed"], catL [w "single", sp1, w "housed"],
    catL [w "pair", sp1, w "housed"]]))
def reEthicsInVivo : Re :=
  bnd (g1 (altL [w "IACUC", w "ARRIVE", phr "Institutional Animal Care", phr "ethics committee",
    phr "animal care and use", phr "animal welfare", w "3R", w "replacement", w "reduction",
    w "refinement", phr "animal protocol", phr "animal approval", phr "ethical approval",
    phr "regulatory compliance"]))
def reExperimentalDesign : Re :=
  bnd (g1 (altL [w "randomized", w "randomization", w "blinded", w "blind",
    catL [w "double", dashWs, w "blind"], catL [w "single", dashWs, w "blind"],
    phr "control group", phr "treatment group", phr "sham control", phr "vehicle control",
    w "baseline", catL [w "post", dashWs, w "treatment"], catL [w "pre", dashWs, w "treatment"],
    catL [w "follow", dashWs, w "up"], w "longitudinal", catL [w "cross", dashWs, w "sectional"],
    w "cohort", w "intervention", w "manipulation"]))
def reDiseaseModels : Re :=
  bnd (g1 (altL [phr "disease model", phr "animal model", w "transgenic", w "knockout",
    catL [w "knock", dashWs, w "in"], w "overexpression", w "mutant", w "mutagenesis",
    w "carcinogen", phr "tumor induction", phr "infection model", phr "injury model",
    phr "trauma model", phr "stroke model", phr "diabetes model", phr "obesity model",
    phr "hypertension model", phr "asthma model", phr "arthritis model", phr "depression model",
    phr "anxiety model", phr "Alzheimer model", phr "Parkinson model", phr "Huntington model",
    phr "ALS model"]))
def reDrugAdministration : Re :=
  bnd (g1 (altL [phr "drug administration", w "treatment", w "dosing", w "dose",
    w "concentration", w "mg/kg", w "μg/kg", w "ng/kg", w "μmol/kg", w "nmol/kg",
    phr "oral administration", w "gavage", phr "intraperitoneal injection",
    phr "intravenous injection", phr "subcutaneous injection", phr "intramuscular injection",
    phr "topical application", w "inhalation", w "intranasal", w "intracerebral",
    w "intraventricular", phr "chronic treatment", phr "acute treatment", phr "repeated dosing",
    phr "single dose", phr "multiple doses"]))
def reImaging : Re :=
  bnd (g1 (altL [w "MRI", w "fMRI", w "PET", w "CT", w "ultrasound",
    catL [w "X", dashWs, w "ray"], w "radiography", w "microscopy", w "confocal",
    w "fluorescence", w "bioluminescence", phr "fluorescence imaging", phr "live imaging",
    catL [w "real", dashWs, w "time", sp1, w "imaging"], w "monitoring", w "telemetry",
    phr "implanted sensor", phr "wireless monitoring", phr "video tracking",
    phr "movement tracking", phr "activity monitoring"]))
def reTissueAnalysis : Re :=
  bnd (g1 (altL [w "histology", w "histological", w "histopathology", w "immunohistochemistry",
    w "IHC", w "immunofluorescence", w "IF", phr "Western blot", w "PCR", w "qPCR",
    catL [w "RT", dashWs, w "PCR"], phr "RNA sequencing", phr "DNA sequencing", w "microarray",
    w "proteomics", w "metabolomics", w "transcriptomics", w "genomics", w "ELISA",
    phr "flow cytometry", w "FACS", w "microscopy", phr "electron microscopy", w "EM",
    w "TEM", w "SEM"]))

/-- `self.in_vivo_patterns` of `InVivoDetector`, in insertion order. -/
def inVivoPatterns : List PatSpec :=
  [⟨"explicit_in_vivo", reExplicitInVivo, 0, true⟩, ⟨"in_vivo_study", reInVivoStudy, 0, true⟩,
   ⟨"in_vivo_experiment", reInVivoExperiment, 1, true⟩, ⟨"in_vivo_model", reInVivoModel, 1, true⟩,
   ⟨"anesthesia", reAnesthesia, 1, true⟩, ⟨"euthanasia", reEuthanasia, 1, true⟩,
   ⟨"injections", reInjections, 1, true⟩, ⟨"surgery", reSurgery, 1, true⟩,
   ⟨"behavioral_tests", reBehavioralTests, 1, true⟩, ⟨"physiological", rePhysiological, 2, true⟩,
   ⟨"sampling", reSampling, 1, true⟩, ⟨"husbandry", reHusbandry, 1, true⟩,
   ⟨"ethics", reEthicsInVivo, 1, true⟩, ⟨"experimental_design", reExperimentalDesign, 1, true⟩,
   ⟨"disease_models", reDiseaseModels, 1, true⟩,
   ⟨"drug_administration", reDrugAdministration, 1, true⟩, ⟨"imaging", reImaging, 1, true⟩,
   ⟨"tissue_analysis", reTissueAnalysis, 1, true⟩]

def reEthicsCommittee : Re :=
  bnd (g1 (altL [phr "ethics committee", phr "institutional review board", w "IRB",
    phr "ethical committee", phr "research ethics committee", w "REC",
    phr "animal ethics committee", w "AEC"]))
def reAnimalCare : Re :=
  bnd (g1 (altL [phr "animal care and use committee", w "ACUC", w "IACUC",
    phr "institutional animal care and use committee", phr "animal welfare committee",
    w "AWC"]))
def reInstitutionalApproval : Re :=
  bnd (g1 (altL [phr "institutional approval", phr "university approval", phr "faculty approval",
    phr "department approval", phr "institute approval", phr "center approval"]))
def reGuidelines : Re :=
  bnd (g1 (altL [phr "NIH Guide", w "ARRIVE", w "3R", w "replacement", w "reduction",
    w "refinement", phr "animal welfare", phr "welfare guidelines", phr "ethical guidelines",
    phr "research guidelines"]))
def reRegulations : Re :=
  bnd (g1 (altL [w "regulations", phr "regulatory compliance", w "compliance",
    phr "ethical standards", w "standards", w "protocol", phr "ethical protocol",
    phr "animal protocol"]))
def reApproval : Re :=
  bnd (g1 (altL [w "approved", w "approval", w "permission", w "authorized", w "authorization",
    w "consent", phr "informed consent", phr "ethical approval", phr "ethical permission"]))
def reDeclaration : Re :=
  bnd (g1 (altL [phr "conducted in accordance", phr "in accordance with", phr "following the",
    phr "according to", phr "compliant with", phr "adhering to", phr "following guidelines",
    phr "ethical principles"]))
def reEthicalConduct : Re :=
  bnd (g1 (altL [phr "ethical conduct", phr "ethical standards", phr "ethical principles",
    phr "ethical practices", phr "ethical considerations", phr "ethical requirements"]))
def reAnimalWelfare : Re :=
  bnd (g1 (altL [phr "animal welfare", phr "welfare of animals", phr "humane treatment",
    phr "humane care", phr "animal rights", phr "animal protection",
    phr "welfare considerations"]))
def reMinimizeSuffering : Re :=
  bnd (g1 (altL [phr "minimize suffering", phr "reduce pain", phr "alleviate distress",
    phr "prevent suffering", phr "minimize stress", phr "reduce discomfort",
    phr "humane endpoints"]))
def reInstitutionMention : Re :=
  bnd (g1 (altL [w "university", w "institute", w "center", w "faculty", w "department",
    w "school", w "college", w "hospital", phr "medical center", phr "research center",
    w "laboratory", w "lab"]))

/-- `self.ethics_patterns` of `EthicsExtractor`, in insertion order. -/
def ethicsPatterns : List PatSpec :=
  [⟨"ethics_committee", reEthicsCommittee, 1, true⟩, ⟨"animal_care", reAnimalCare, 1, true⟩,
   ⟨"institutional_approval", reInstitutionalApproval, 1, true⟩,
   ⟨"guidelines", reGuidelines, 1, true⟩, ⟨"regulations", reRegulations, 1, true⟩,
   ⟨"approval", reApproval, 1, true⟩, ⟨"declaration", reDeclaration, 1, true⟩,
   ⟨"ethical_conduct", reEthicalConduct, 1, true⟩, ⟨"animal_welfare", reAnimalWelfare, 1, true⟩,
   ⟨"minimize_suffering", reMinimizeSuffering, 1, true⟩,
   ⟨"institution_mention", reInstitutionMention, 1, true⟩]

/-- `[A-Z][a-z]+` -/
def upWord : Re := catL [.cls [('A', 'Z')], .cls [('a', 'z')], .star (.cls [('a', 'z')])]

def reInst1 : Re :=
  bnd (g1 (catL [upWord, .star (.cat sp1 upWord), sp1,
    altL [w "University", w "Institute", w "Center", w "Faculty", w "Department", w "School",
      w "College", w "Hospital", w "Laboratory", w "Lab"]]))
def reInst2 : Re := bnd (g1 (catL [upWord, .star (.cat sp1 upWord), sp1, w "Medical", sp1, w "Center"]))
def reInst3 : Re := bnd (g1 (catL [upWord, .star (.cat sp1 upWord), sp1, w "Research", sp1, w "Center"]))

/-! The evidence extractors (`find_matches_with_context`,
`extract_sentences_with_keywords`, `extract_institutions`,
`extract_ethics_sentences`, `analyze_in_vivo_evidence`,
`analyze_ethics_evidence`), translated statement by statement. -/

/-- The normalisation loop of `find_matches_with_context`: a tuple is
joined over its non-empty components with spaces, a plain string kept. -/
def normalizeItem : PyItem → Str
  | .str s => s
  | .tup l => joinSp (l.filter fun x => !x.isEmpty)

/-- `find_matches_with_context` (identical in both extractors): for each
(label, pattern), `findall`; keep the label only when something was found;
value is the deduplicated list of normalised match strings. -/
def findMatchesWithContext (pats : List PatSpec) (text : Str) : List (String × List Str) :=
  pats.filterMap fun p =>
    let found := pyFindall p.ci p.re p.ng text
    if found.isEmpty then none
    else some (p.label, (found.map normalizeItem).dedup)

/-- The per-sentence retention test of `extract_sentences_with_keywords`:
at least 10 characters after stripping, and some keyword matches as a
whole word, case-insensitively. -/
def sentKeep (kws : List Str) (s : Str) : Bool :=
  decide (10 ≤ s.length) && kws.any (wholeWordSearch s)

/-- `extract_sentences_with_keywords` (identical in both extractors). -/
def extractSentencesWithKeywords (text : Str) (kws : List Str) : List Str :=
  (((splitSent text).map pyStrip).filter (sentKeep kws)).dedup

/-- `extract_species_sentences`: the keywords are the keys of the
species table. -/
def extractSpeciesSentences (text : Str) : List Str :=
  extractSentencesWithKeywords text (speciesPatterns.map fun p => p.label.data)

/-- `extract_ethics_sentences`: a sentence is kept when any ethics
pattern's `search` hits it. -/
def extractEthicsSentences (text : Str) : List Str :=
  ((((splitSent text).map pyStrip).filter fun s =>
    decide (10 ≤ s.length) && ethicsPatterns.any fun p => pySearch p.ci p.re s)).dedup

/-- `extract_institutions`: three case-sensitive capture patterns,
results concatenated then deduplicated. -/
def extractInstitutions (text : Str) : List Str :=
  ((pyFindall false reInst1 1 text ++ pyFindall false reInst2 1 text ++
    pyFindall false reInst3 1 text).map normalizeItem).dedup

structure InVivoResult where
  evidence_categories : List (String × List Str × List Str)
  species_detected : List String
  strains_detected : List String
  in_vivo_keywords : List Str
  evidence_sentences : List Str
  species_sentences : List Str
  summary : Str
deriving Repr

structure EthicsResult where
  evidence_categories : List (String × List Str × List Str)
  institutions_detected : List Str
  ethics_keywords : List Str
  evidence_sentences : List Str
  ethics_sentences : List Str
  summary : Str
deriving Repr

/-- The summary construction of `analyze_in_vivo_evidence`: all detected
species, all detected strains, the first three aggregated sentences. -/
def buildInVivoSummary (species strains : List String) (sents : List Str) : Str :=
  let parts : List Str :=
    (if species.isEmpty then [] else
      ["Species: ".data ++ joinWith ", ".data (species.map String.data)]) ++
    (if strains.isEmpty then [] else
      ["Strains: ".data ++ joinWith ", ".data (strains.map String.data)]) ++
    (if sents.isEmpty then [] else
      ["Evidence: ".data ++ joinWith " | ".data (sents.take 3)])
  if parts.isEmpty then "No in vivo evidence found".data else joinWith "; ".data parts

/-- The summary construction of `analyze_ethics_evidence`: the first three
institutions, the first three aggregated sentences. -/
def buildEthicsSummary (insts sents : List Str) : Str :=
  let parts : List Str :=
    (if insts.isEmpty then [] else
      ["Institutions: ".data ++ joinWith ", ".data (insts.take 3)]) ++
    (if sents.isEmpty then [] else
      ["Evidence: ".data ++ joinWith " | ".data (sents.take 3)])
  if parts.isEmpty then "No ethics evidence found".data else joinWith "; ".data parts

/-- The per-category loop of `analyze_in_vivo_evidence`: categories with
hits, each with its keywords and keyword sentences. -/
def inVivoCats (text : Str) : List (String × List Str × List Str) :=
  (findMatchesWithContext inVivoPatterns text).filterMap fun lk =>
    if lk.2.isEmpty then none
    else some (lk.1, lk.2, extractSentencesWithKeywords text lk.2)

def inVivoAllKeywords (text : Str) : List Str := (inVivoCats text).flatMap fun c => c.2.1

def inVivoAllSentences (text : Str) : List Str := (inVivoCats text).flatMap fun c => c.2.2

/-- `list(species_hits.keys())`. -/
def speciesDetected (text : Str) : List String :=
  (findMatchesWithContext speciesPatterns text).map fun lk => lk.1

/-- `list(strain_hits.keys())`. -/
def strainsDetected (text : Str) : List String :=
  (findMatchesWithContext strainPatterns text).map fun lk => lk.1

/-- `InVivoDetector.analyze_in_vivo_evidence`. -/
def analyzeInVivoEvidence (text : Str) : InVivoResult :=
  { evidence_categories := inVivoCats text
    species_detected := speciesDetected text
    strains_detected := strainsDetected text
    in_vivo_keywords := (inVivoAllKeywords text).dedup
    evidence_sentences := (inVivoAllSentences text).dedup
    species_sentences := extractSpeciesSentences text
    summary := buildInVivoSummary (speciesDetected text) (strainsDetected text)
      (inVivoAllSentences text) }

/-- The per-category loop of `analyze_ethics_evidence`. -/
def ethicsCats (text : Str) : List (String × List Str × List Str) :=
  (findMatchesWithContext ethicsPatterns text).filterMap fun lk =>
    if lk.2.isEmpty then none
    else some (lk.1, lk.2, extractSentencesWithKeywords text lk.2)

def ethicsAllKeywords (text : Str) : List Str := (ethicsCats text).flatMap fun c => c.2.1

def ethicsAllSentences (text : Str) : List Str := (ethicsCats text).flatMap fun c => c.2.2

/-- `EthicsExtractor.analyze_ethics_evidence`. -/
def analyzeEthicsEvidence (text : Str) : EthicsResult :=
  { evidence_categories := ethicsCats text
    institutions_detected := extractInstitutions text
    ethics_keywords := (ethicsAllKeywords text).dedup
    evidence_sentences := (ethicsAllSentences text).dedup
    ethics_sentences := extractEthicsSentences text
    summary := buildEthicsSummary (extractInstitutions text) (ethicsAllSentences text) }

/-! The tiered fetch pipeline of `text_fetcher.py`, embedded as a pure
function of an environment record that fixes the outcome of every
upstream call (identifier lookups, XML fetches, parses, the UBN/open
access PDF path, GROBID).  `Except.error` models a Python exception that
escapes `fetch_full_paper_text` (the unguarded Elsevier `requests.get`);
all other paths yield a `FullPaperText`. -/

structure SectionT where
  section_name : Str
  text : Str
  section_type : String
deriving DecidableEq, Repr

structure FullPaperText where
  doi : String
  pmcid : Option String
  source : String
  full_text : Str
  sections : List SectionT
  success : Bool
  error_message : String
deriving DecidableEq, Repr

/-- `_extract_full_text_from_sections`: space-join of the truthy section
texts, in order. -/
def fullTextFromSections (sections : List SectionT) : Str :=
  joinSp ((sections.map fun s => s.text).filter fun t => !t.isEmpty)

/-- The methods-section regex of `fetch_full_paper_text` (and
`extract_methods_text`). -/
def reMethodsName : Re :=
  bnd (g1 (altL [.cat (w "method") (.opt (w "s")),
    catL [w "materials", sp1, w "and", sp1, .cat (w "method") (.opt (w "s"))],
    catL [w "experimental", sp1, .cat (w "procedure") (.opt (w "s"))]]))

def methodsNameSearch (name : Str) : Bool := pySearch true reMethodsName name

/-- The minimum-content check applied at the PubMed tier. -/
def methodsFound (sections : List SectionT) : Bool :=
  sections.any fun s => s.section_type == "methods" || methodsNameSearch s.section_name

/-- A parsed Elsevier response: the text of the `ce:doc` / `xocs:doc`
element if present, and the `ce:section` elements (title text, section
text) under the `front`, `body` and `back` tags if present. -/
structure ElsSec where
  title : Option Str
  text : Str
deriving DecidableEq, Repr

structure ElsevierXml where
  ceDoc : Option Str
  xocsDoc : Option Str
  front : Option (List ElsSec)
  body : Option (List ElsSec)
  back : Option (List ElsSec)
deriving DecidableEq, Repr

def elsevierAddSecs (secs : List ElsSec) (acc0 : List SectionT) : List SectionT :=
  secs.foldl (fun acc sec =>
    let titleText := match sec.title with
      | some t => t
      | none => ("section_" ++ toString acc.length).data
    if sec.text.isEmpty then acc
    else acc ++ [⟨titleText, sec.text, classifySectionType titleText⟩]) acc0

/-- `extract_sections_from_elsevier`: the returned full text is the
document element's text, while the sections come from the `ce:section`
walk — two independent extractions. -/
def extractSectionsFromElsevier (x : ElsevierXml) : Str × List SectionT :=
  let fullT : Str :=
    match x.ceDoc with
    | some t => t
    | none =>
      match x.xocsDoc with
      | some t => t
      | none => []
  let secs :=
    elsevierAddSecs (x.back.getD [])
      (elsevierAddSecs (x.body.getD []) (elsevierAddSecs (x.front.getD []) []))
  (fullT, secs)

structure FetchEnv where
  doi : String
  publisher : Option String
  pmcid : Option String
  jatsXml : Option String
  jatsSections : List SectionT
  pmid : Option String
  pubmedXml : Option String
  pubmedSections : List SectionT
  elsevierResp : Except String String
  elsevierXml : ElsevierXml
  ubnPdf : Except String (Option Unit)
  oaPdf : Except String (Option Unit)
  grobid : Except String (Option String)
  teiSections : List SectionT

/-- Python truthiness of an optional string. -/
def optTruthy : Option String → Bool
  | none => false
  | some s => !s.isEmpty

/-- The `success=False` document built in the final `except` clause. -/
def failDoc (doi : String) (m : String) : FullPaperText :=
  ⟨doi, none, "None", [], [], false, m⟩

/-- The PDF acquisition of step 4: UBN first; on an exception there, the
open-access lookup, whose own exception propagates and whose empty result
raises the fixed download failure message. -/
def ubnPdfOutcome (env : FetchEnv) : Except String (Option Unit) :=
  match env.ubnPdf with
  | .ok p => .ok p
  | .error _ =>
    match env.oaPdf with
    | .error m => .error m
    | .ok (some p) => .ok (some p)
    | .ok none => .error "Failed to download PDF."

/-- Step 4 (UBN / open access / GROBID), whole body wrapped by the outer
`except` that builds `failDoc`.  A `None` PDF reaching GROBID raises the
`seek` attribute error, which the outer handler also catches. -/
def fetchStep4 (env : FetchEnv) : FullPaperText :=
  match ubnPdfOutcome env with
  | .error m => failDoc env.doi m
  | .ok none => failDoc env.doi "'NoneType' object has no attribute 'seek'"
  | .ok (some _) =>
    match env.grobid with
    | .error m => failDoc env.doi m
    | .ok tei =>
      if optTruthy tei then
        if env.teiSections.isEmpty then
          failDoc env.doi "Failed to extract sections from GROBID's TEI XML."
        else
          ⟨env.doi, none, "UBN/GROBID", fullTextFromSections env.teiSections,
            env.teiSections, true, ""⟩
      else failDoc env.doi "Failed to process PDF with GROBID."

/-- Step 3 (Elsevier): only for publisher `"Elsevier BV"`; the raw
`requests.get` is unguarded, so its exception escapes the whole fetch. -/
def fetchStep3 (env : FetchEnv) : Except String FullPaperText :=
  if env.publisher == some "Elsevier BV" then
    match env.elsevierResp with
    | .error m => .error m
    | .ok xmlText =>
      if !xmlText.isEmpty then
        if !(extractSectionsFromElsevier env.elsevierXml).2.isEmpty then
          .ok ⟨env.doi, none, "Elsevier", (extractSectionsFromElsevier env.elsevierXml).1,
            (extractSectionsFromElsevier env.elsevierXml).2, true, ""⟩
        else .ok (fetchStep4 env)
      else .ok (fetchStep4 env)
  else .ok (fetchStep4 env)

/-- Step 2 (PubMed): the only tier that additionally requires a
methods-like section before returning. -/
def fetchStep2 (env : FetchEnv) : Except String FullPaperText :=
  if optTruthy env.pmid && optTruthy env.pubmedXml && !env.pubmedSections.isEmpty then
    if methodsFound env.pubmedSections then
      .ok ⟨env.doi, none, "PubMed", fullTextFromSections env.pubmedSections,
        env.pubmedSections, true, ""⟩
    else fetchStep3 env
  else fetchStep3 env

/-- `PaperFetcher.fetch_full_paper_text`: PMC, then PubMed, then
Elsevier, then UBN/open access. -/
def fetchFullPaperText (env : FetchEnv) : Except String FullPaperText :=
  if optTruthy env.pmcid && optTruthy env.jatsXml && !env.jatsSections.isEmpty then
    .ok ⟨env.doi, env.pmcid, "PMC", fullTextFromSections env.jatsSections,
      env.jatsSections, true, ""⟩
  else fetchStep2 env

/-! `_http_get`: three attempts, sleeping `0.5 * attempt` after every
non-200 response, JSON failure or transport exception; after the loop the
last bound response's `raise_for_status()` runs (a `NameError` if no
attempt ever produced a response, a silent `None` return if the last
response was a 200 whose JSON failed to parse). -/

inductive HttpAttempt where
  | exn : String → HttpAttempt
  | resp : Nat → Bool → HttpAttempt
deriving DecidableEq, Repr

inductive HttpOutcome where
  | got : Nat → HttpOutcome
  | raisedStatus : Nat → HttpOutcome
  | raisedNameError : HttpOutcome
  | returnedNone : HttpOutcome
deriving DecidableEq, Repr

def httpGetLoop (expectJson : Bool) (env : Nat → HttpAttempt) :
    Nat → Nat → Option Nat → List Rat → HttpOutcome × Nat × List Rat
  | 0, _, lastStatus, sleeps =>
    (match lastStatus with
     | none => .raisedNameError
     | some st => if 400 ≤ st ∧ st < 600 then .raisedStatus st else .returnedNone,
     3, sleeps.reverse)
  | remaining + 1, attempt, lastStatus, sleeps =>
    match env attempt with
    | .exn _ =>
      httpGetLoop expectJson env remaining (attempt + 1) lastStatus
        ((attempt : Rat) / 2 :: sleeps)
    | .resp st j =>
      if st == 200 then
        if expectJson && !j then
          httpGetLoop expectJson env remaining (attempt + 1) (some st)
            ((attempt : Rat) / 2 :: sleeps)
        else (.got st, attempt, sleeps.reverse)
      else
        httpGetLoop expectJson env remaining (attempt + 1) (some st)
          ((attempt : Rat) / 2 :: sleeps)

/-- `PaperFetcher._http_get`, as (outcome, requests issued, sleep log):
the `for attempt in range(1, 4)` loop entered with three attempts left. -/
def httpGetRun (expectJson : Bool) (env : Nat → HttpAttempt) : HttpOutcome × Nat × List Rat :=
  httpGetLoop expectJson env 3 1 none []

/-! `_normalize_identifier` and `_doi_to_pmcid`. -/

def isDigitCh (c : Char) : Bool := 48 ≤ c.toNat && c.toNat ≤ 57

/-- `re.fullmatch(r"s\d{5}-\d{3}-\d{5}-\d", id_str)`. -/
def bmcSuffix (s : Str) : Bool :=
  match s with
  | 's' :: d1 :: d2 :: d3 :: d4 :: d5 :: '-' :: e1 :: e2 :: e3 :: '-' ::
      f1 :: f2 :: f3 :: f4 :: f5 :: '-' :: g :: [] =>
    [d1, d2, d3, d4, d5, e1, e2, e3, f1, f2, f3, f4, f5, g].all isDigitCh
  | _ => false

/-- `PaperFetcher._normalize_identifier`. -/
def normalizeIdentifier (s : Str) : Str :=
  let s1 := pyStrip s
  let s2 := if lowerStr (s1.take 4) == "doi:".data then pyStrip (s1.drop 4) else s1
  if "10.".data.isPrefixOf s2 then s2
  else if bmcSuffix s2 then "10.1186/".data ++ s2
  else s2

inductive NcbiEvent where
  | idconvQ : Str → NcbiEvent
  | sleepQ : Rat → NcbiEvent
  | esearchQ : Str → NcbiEvent
deriving DecidableEq, Repr

/-- Outcomes of the two lookup strategies: `idconv` is the `pmcid` field
of the first id-conversion record (an exception anywhere in that strategy
is `.error`), `esearchIds` the `idlist` of the search strategy. -/
structure PmcidEnv where
  idconv : Except String (Option String)
  esearchIds : Except String (List String)

def politeDelay : Rat := 34 / 100

/-- The fallback arm of `_doi_to_pmcid`: sleep the politeness delay, run
the esearch strategy, prefix `PMC` to the first id if any. -/
def pmcidFallback (doi : Str) (env : PmcidEnv) : Option String × List NcbiEvent :=
  ((match env.esearchIds with
    | .ok (i :: _) => some ("PMC" ++ i)
    | _ => none),
   [.idconvQ doi, .sleepQ politeDelay, .esearchQ doi])

/-- `PaperFetcher._doi_to_pmcid`, as (result, event log). -/
def doiToPmcid (inp : Str) (env : PmcidEnv) : Option String × List NcbiEvent :=
  let doi := normalizeIdentifier inp
  match env.idconv with
  | .ok (some p) => if !p.isEmpty then (some p, [.idconvQ doi]) else pmcidFallback doi env
  | _ => pmcidFallback doi env

/-! Specification-side definitions the theorems compare the embedded code
against, and the concrete instances used by counterexamples and
witnesses. -/

/-- The classifier's rule table as data: ordered (keywords, type) rows,
first row whose keyword occurs in the lowered heading wins, default
`body`. -/
def sectionRules : List (List Str × String) :=
  [(["method".data, "material".data], "methods"),
   (["result".data, "finding".data], "results"),
   (["discussion".data, "conclusion".data], "discussion"),
   (["introduction".data, "background".data], "introduction")]

def orderedFirstMatch (rules : List (List Str × String)) (name : Str) : String :=
  match rules.find? (fun r => r.1.any fun k => containsSub (lowerStr name) k) with
  | some r => r.2
  | none => "body"

/-- Tier-acceptance conditions, phrased over the environment. -/
def pmcTierOk (env : FetchEnv) : Bool :=
  optTruthy env.pmcid && optTruthy env.jatsXml && !env.jatsSections.isEmpty

def pubmedTierOk (env : FetchEnv) : Bool :=
  optTruthy env.pmid && optTruthy env.pubmedXml && !env.pubmedSections.isEmpty &&
  methodsFound env.pubmedSections

def grobidOk (env : FetchEnv) : Bool :=
  match env.grobid with
  | .ok tei => optTruthy tei && !env.teiSections.isEmpty
  | .error _ => false

def ubnTierOk (env : FetchEnv) : Bool :=
  match ubnPdfOutcome env with
  | .ok (some _) => grobidOk env
  | _ => false

/-- Which (source, success) the orchestrator yields: a strict linear
fallback in which only the PubMed tier checks for a methods-like section,
and an Elsevier transport error escapes as an exception. -/
def tierResultSpec (env : FetchEnv) : Except String (String × Bool) :=
  if pmcTierOk env then .ok ("PMC", true)
  else if pubmedTierOk env then .ok ("PubMed", true)
  else if env.publisher == some "Elsevier BV" then
    match env.elsevierResp with
    | .error m => .error m
    | .ok xmlText =>
      if !xmlText.isEmpty && !(extractSectionsFromElsevier env.elsevierXml).2.isEmpty then
        .ok ("Elsevier", true)
      else .ok (if ubnTierOk env then ("UBN/GROBID", true) else ("None", false))
  else .ok (if ubnTierOk env then ("UBN/GROBID", true) else ("None", false))

/-- An attempt outcome lets `_http_get` return: a 200 whose JSON (when
demanded) parses. -/
def httpReturnable (expectJson : Bool) : HttpAttempt → Bool
  | .resp st j => st == 200 && (!expectJson || j)
  | .exn _ => false

/-- The post-loop behaviour: `raise_for_status` on the last response that
was ever bound, a `NameError` when none was. -/
def httpFinal (env : Nat → HttpAttempt) : HttpOutcome :=
  let lastSt : Option Nat :=
    match env 3 with
    | .resp st _ => some st
    | .exn _ =>
      match env 2 with
      | .resp st _ => some st
      | .exn _ =>
        match env 1 with
        | .resp st _ => some st
        | .exn _ => none
  match lastSt with
  | none => .raisedNameError
  | some st => if 400 ≤ st ∧ st < 600 then .raisedStatus st else .returnedNone

/-- The retry discipline `_http_get` actually implements: every non-200
status — 4xx included — and every transport error is retried, up to three
attempts, sleeping `0.5 * attempt` after each failed one. -/
def httpSpec (expectJson : Bool) (env : Nat → HttpAttempt) : HttpOutcome × Nat × List Rat :=
  if httpReturnable expectJson (env 1) then (.got 200, 1, [])
  else if httpReturnable expectJson (env 2) then (.got 200, 2, [1 / 2])
  else if httpReturnable expectJson (env 3) then (.got 200, 3, [1 / 2, 1])
  else (httpFinal env, 3, [1 / 2, 1, 3 / 2])

/-- The section texts actually joined by `_extract_full_text_from_sections`. -/
def sectionTexts (sections : List SectionT) : List Str :=
  (sections.map fun s => s.text).filter fun t => !t.isEmpty

/-- The last character of a fragment is a sentence terminator. -/
def lastIsTerm : Str → Bool
  | [] => false
  | [c] => isTerm c
  | _ :: c :: rest => lastIsTerm (c :: rest)

/-- The stripped, length- and keyword-filtered fragments of a text
(`extract_sentences_with_keywords` before deduplication). -/
def stripKeep (kws : List Str) (t : Str) : List Str :=
  ((splitSent t).map pyStrip).filter (sentKeep kws)

/-! Concrete instances. -/

def secIntroC1 : SectionT :=
  ⟨"Introduction".data, "An introductory passage about background".data, "introduction"⟩

def secMethodsC1 : SectionT :=
  ⟨"Methods".data, "We applied procedures to rats".data, "methods"⟩

/-- A run in which PMC succeeds without any methods-like section while
PubMed would succeed with one. -/
def envC1 : FetchEnv :=
  { doi := "10.1/x", publisher := none,
    pmcid := some "PMC1", jatsXml := some "<jats/>", jatsSections := [secIntroC1],
    pmid := some "11", pubmedXml := some "<pubmed/>", pubmedSections := [secMethodsC1],
    elsevierResp := .ok "", elsevierXml := ⟨none, none, none, none, none⟩,
    ubnPdf := .error "no result", oaPdf := .ok none, grobid := .ok none, teiSections := [] }

def docC1 : FullPaperText :=
  ⟨"10.1/x", some "PMC1", "PMC", "An introductory passage about background".data,
    [secIntroC1], true, ""⟩

def elsSecC2 : ElsSec := ⟨some "Methods".data, "Methods We used rats".data⟩

/-- An Elsevier run: the `ce:doc` element's text differs from the section
texts. -/
def envC2 : FetchEnv :=
  { doi := "10.2/y", publisher := some "Elsevier BV",
    pmcid := none, jatsXml := none, jatsSections := [],
    pmid := none, pubmedXml := none, pubmedSections := [],
    elsevierResp := .ok "<els/>",
    elsevierXml := { ceDoc := some "Serial banner and article text".data, xocsDoc := none,
                     front := none, body := some [elsSecC2], back := none },
    ubnPdf := .error "n", oaPdf := .ok none, grobid := .ok none, teiSections := [] }

def docC2 : FullPaperText :=
  ⟨"10.2/y", none, "Elsevier", "Serial banner and article text".data,
    [⟨"Methods".data, "Methods We used rats".data, "methods"⟩], true, ""⟩

def secW2 : SectionT := ⟨"Methods".data, "We used mice".data, "methods"⟩
def secW2b : SectionT := ⟨"Results".data, "They ran".data, "results"⟩

/-- A successful PMC run, for the C2 witness. -/
def envW2 : FetchEnv :=
  { doi := "10.4/w", publisher := none,
    pmcid := some "PMC2", jatsXml := some "<jats/>", jatsSections := [secW2, secW2b],
    pmid := none, pubmedXml := none, pubmedSections := [],
    elsevierResp := .ok "", elsevierXml := ⟨none, none, none, none, none⟩,
    ubnPdf := .error "n", oaPdf := .ok none, grobid := .ok none, teiSections := [] }

def docW2 : FullPaperText :=
  ⟨"10.4/w", some "PMC2", "PMC", "We used mice They ran".data, [secW2, secW2b], true, ""⟩

/-- A fully failing run (UBN raises, open access finds no link). -/
def envW10 : FetchEnv :=
  { doi := "10.3/z", publisher := none,
    pmcid := none, jatsXml := none, jatsSections := [],
    pmid := none, pubmedXml := none, pubmedSections := [],
    elsevierResp := .ok "", elsevierXml := ⟨none, none, none, none, none⟩,
    ubnPdf := .error "selenium failed", oaPdf := .ok none, grobid := .ok none,
    teiSections := [] }

def textC6 : Str := "a rat sat".data

def textC7 : Str := "A rat, a mouse, a sheep and a fish.".data

def secC8a : SectionT := ⟨"A".data, "rats got intraperitoneal".data, "body"⟩
def secC8b : SectionT := ⟨"B".data, "injection of saline fast".data, "body"⟩

def secC8c : SectionT := ⟨"C".data, "Animals were used here.".data, "body"⟩
def secC8d : SectionT := ⟨"D".data, "An ethics committee approved it.".data, "body"⟩

def envC9hit : PmcidEnv := ⟨.ok (some "PMC777"), .ok []⟩
def envC9miss : PmcidEnv := ⟨.error "idconv down", .ok ["424242"]⟩

/-- The failure document `envW10` produces. -/
def docW10 : FullPaperText :=
  ⟨"10.3/z", none, "None", [], [], false, "Failed to download PDF."⟩

/-! Theorems. -/

/-- C4 counterexample: the section classifier tags the heading
"Experimental Procedures" as `body`, not `methods` — its lowered text
contains neither "method" nor "material". -/
theorem C4_counterexample :
    classifySectionType "Experimental Procedures".data = "body" ∧
    classifySectionType "Experimental Procedures".data ≠ "methods" := by
  exact ⟨by decide, by decide⟩

/-- C4 (amended): the classifier is an ordered first-match keyword
containment table (method/material, then result/finding, then
discussion/conclusion, then introduction/background, default `body`);
"Results" is tagged `results`, but "Experimental Procedures" is tagged
`body` — only the orchestrator's separate methods-name regex accepts it
as methods-like. -/
theorem C4_classifier_rule_table :
    (∀ name : Str, classifySectionType name = orderedFirstMatch sectionRules name) ∧
    classifySectionType "Results".data = "results" ∧
    classifySectionType "Experimental Procedures".data = "body" ∧
    methodsNameSearch "Experimental Procedures".data = true := by
  refine ⟨?_, by decide, by decide, by decide⟩
  intro name
  simp only [classifySectionType, orderedFirstMatch, sectionRules, List.find?,
    List.any_cons, List.any_nil, Bool.or_false]
  cases h1 : containsSub (lowerStr name) "method".data ||
      containsSub (lowerStr name) "material".data <;> simp only [h1]
  case true => simp
  case false =>
    cases h2 : containsSub (lowerStr name) "result".data ||
        containsSub (lowerStr name) "finding".data <;> simp only [h2]
    case true => simp
    case false =>
      cases h3 : containsSub (lowerStr name) "discussion".data ||
          containsSub (lowerStr name) "conclusion".data <;> simp only [h3]
      case true => simp
      case false =>
        cases h4 : containsSub (lowerStr name) "introduction".data ||
            containsSub (lowerStr name) "background".data <;> simp only [h4] <;> simp

/-- C5: `extract_sentences_with_keywords` returns, without duplicates,
exactly the stripped fragments of the `[.!?]+` split that are at least 10
characters long and contain some keyword as a whole word,
case-insensitively. -/
theorem C5_sentence_locator :
    ∀ (text : Str) (kws : List Str),
      (extractSentencesWithKeywords text kws).Nodup ∧
      (∀ x : Str, x ∈ extractSentencesWithKeywords text kws ↔
        (x ∈ (splitSent text).map pyStrip ∧ 10 ≤ x.length ∧
          ∃ kw ∈ kws, wholeWordSearch x kw = true)) := by
  intro text kws
  refine ⟨List.nodup_dedup _, fun x => ?_⟩
  simp [extractSentencesWithKeywords, List.mem_filter, sentKeep, List.any_eq_true,
    and_assoc]

/-- C6 counterexample: on "a rat sat", the rat pattern `\brat(s)?\b`
matches the word "rat", yet the stored value is the capture group's
content — the empty string — not the matched keyword "rat". -/
theorem C6_counterexample :
    findMatchesWithContext speciesPatterns textC6 = [("rat", [[]])] ∧
    "rat".data ∉ [([] : Str)] := by
  exact ⟨by decide, by decide⟩

/-- C6 (amended): `find_matches_with_context` keeps exactly the labels
whose pattern has at least one `findall` hit, and each kept value is the
deduplicated list of normalised capture results of that pattern — group
contents, not necessarily the matched keyword text. -/
theorem C6_match_table :
    ∀ (pats : List PatSpec) (text : Str),
      ((findMatchesWithContext pats text).map Prod.fst =
        (pats.filter fun p => !(pyFindall p.ci p.re p.ng text).isEmpty).map PatSpec.label) ∧
      (∀ (l : String) (v : List Str), (l, v) ∈ findMatchesWithContext pats text →
        v.Nodup ∧ ∃ p ∈ pats, p.label = l ∧
          v = ((pyFindall p.ci p.re p.ng text).map normalizeItem).dedup) := by
  intro pats text
  constructor
  · induction pats with
    | nil => simp [findMatchesWithContext]
    | cons p ps ih =>
      simp only [findMatchesWithContext] at ih ⊢
      simp only [List.isEmpty_iff] at ih ⊢
      by_cases h : pyFindall p.ci p.re p.ng text = [] <;>
        simp [List.filterMap_cons, List.filter_cons, List.isEmpty_iff, h, ih]
  · intro l v hv
    simp only [findMatchesWithContext, List.mem_filterMap] at hv
    obtain ⟨p, hp, he⟩ := hv
    by_cases h : pyFindall p.ci p.re p.ng text = []
    · have hcond : (pyFindall p.ci p.re p.ng text).isEmpty = true := by
        simpa [List.isEmpty_iff] using h
      rw [if_pos hcond] at he
      exact absurd he (by simp)
    · have hcond : ¬((pyFindall p.ci p.re p.ng text).isEmpty = true) := by
        simpa [List.isEmpty_iff] using h
      rw [if_neg hcond] at he
      have h1 : p.label = l := congrArg Prod.fst (Option.some.inj he)
      have h2 : ((pyFindall p.ci p.re p.ng text).map normalizeItem).dedup = v :=
        congrArg Prod.snd (Option.some.inj he)
      exact ⟨h2 ▸ List.nodup_dedup _, p, hp, h1, h2.symm⟩

/-- C6 witness: the theorem applied to the species table on "a rat sat"
at the entry for label "rat". -/
theorem C6_match_table_witness :
    [([] : Str)].Nodup ∧ ∃ p ∈ speciesPatterns, p.label = "rat" ∧
      [([] : Str)] = ((pyFindall p.ci p.re p.ng textC6).map normalizeItem).dedup :=
  (C6_match_table speciesPatterns textC6).2 "rat" [[]] (by decide)

/-- C3 counterexample: a 404 response is not a fast failure — `_http_get`
sleeps and retries it like any other non-200, using all three attempts
before raising. -/
theorem C3_counterexample :
    httpGetRun false (fun _ => .resp 404 true) =
      (.raisedStatus 404, 3, [1 / 2, 1, 3 / 2]) ∧
    (httpGetRun false (fun _ => .resp 404 true)).2.1 ≠ 1 := by
  have h : httpGetRun false (fun _ => .resp 404 true) =
      (.raisedStatus 404, 3, [1 / 2, 1, 3 / 2]) := by
    norm_num [httpGetRun, httpGetLoop]
  exact ⟨h, by rw [h]; decide⟩

set_option maxHeartbeats 2000000 in
/-- C3 (amended): `_http_get` treats every non-200 status (4xx included,
429 included) and every transport error uniformly: retry with sleeps
`0.5 * attempt`, at most three attempts, then `raise_for_status` on the
last bound response (or a `NameError` when every attempt raised, or a
silent `None` when the last response was a 200 with unparsable JSON). -/
theorem C3_http_retry_discipline :
    ∀ (expectJson : Bool) (env : Nat → HttpAttempt),
      httpGetRun expectJson env = httpSpec expectJson env := by
  intro ej env
  rcases h1 : env 1 with m1 | ⟨st1, j1⟩ <;>
    rcases h2 : env 2 with m2 | ⟨st2, j2⟩ <;>
      rcases h3 : env 3 with m3 | ⟨st3, j3⟩ <;>
        cases ej <;>
          simp only [httpGetRun, httpGetLoop, httpSpec, httpReturnable, httpFinal,
            h1, h2, h3] <;>
          split_ifs <;> simp_all

/-- C9: `_doi_to_pmcid` normalises the identifier, returns a truthy
id-conversion hit immediately (no sleep, no second query); otherwise — on
an empty, falsy or failed first strategy — it sleeps the politeness delay,
queries esearch, and returns `PMC` + the first id, `none` when that too is
empty or errors.  The normaliser strips whitespace and a `doi:` tag and
expands the Springer suffix shape into a full DOI. -/
theorem C9_resolver :
    (∀ (inp : Str) (env : PmcidEnv) (p : String), env.idconv = .ok (some p) → p ≠ "" →
      doiToPmcid inp env = (some p, [.idconvQ (normalizeIdentifier inp)])) ∧
    (∀ (inp : Str) (env : PmcidEnv), (∀ p, env.idconv = .ok (some p) → p = "") →
      doiToPmcid inp env =
        ((match env.esearchIds with
          | .ok (i :: _) => some ("PMC" ++ i)
          | _ => none),
         [.idconvQ (normalizeIdentifier inp), .sleepQ politeDelay,
          .esearchQ (normalizeIdentifier inp)])) ∧
    normalizeIdentifier "  doi:10.1234/ABC  ".data = "10.1234/ABC".data ∧
    normalizeIdentifier "s12345-123-12345-1".data = "10.1186/s12345-123-12345-1".data ∧
    normalizeIdentifier "10.5555/xyz".data = "10.5555/xyz".data := by
  refine ⟨?_, ?_, by decide, by decide, by decide⟩
  · intro inp env p hp hne
    have : p.isEmpty = false := by
      cases hpe : p.isEmpty
      · rfl
      · exact absurd ((String.isEmpty_iff _).mp hpe) hne
    simp [doiToPmcid, hp, this]
  · intro inp env hall
    rcases h : env.idconv with m | o
    · simp [doiToPmcid, h, pmcidFallback]
    · rcases o with _ | p
      · simp [doiToPmcid, h, pmcidFallback]
      · have hp : p = "" := hall p h
        subst hp
        simp [doiToPmcid, h, pmcidFallback, show "".isEmpty = true from rfl]

/-- C9 witness: a truthy first-strategy hit returns at once; a failed
first strategy falls back to esearch with the politeness sleep and the
`PMC` prefix. -/
theorem C9_resolver_witness :
    doiToPmcid "10.9/q".data envC9hit =
      (some "PMC777", [.idconvQ (normalizeIdentifier "10.9/q".data)]) ∧
    doiToPmcid "10.9/q".data envC9miss =
      (some "PMC424242",
       [.idconvQ (normalizeIdentifier "10.9/q".data), .sleepQ politeDelay,
        .esearchQ (normalizeIdentifier "10.9/q".data)]) := by
  constructor
  · exact C9_resolver.1 "10.9/q".data envC9hit "PMC777" rfl (by decide)
  · exact C9_resolver.2.1 "10.9/q".data envC9miss (fun p h => by simp [envC9miss] at h)

/-- The (source, success) view of the UBN/GROBID step. -/
theorem step4_source_success (env : FetchEnv) :
    ((fetchStep4 env).source, (fetchStep4 env).success) =
      (if ubnTierOk env then ("UBN/GROBID", true) else ("None", false)) := by
  unfold fetchStep4 ubnTierOk grobidOk
  rcases h : ubnPdfOutcome env with m | o
  · simp [h, failDoc]
  · rcases o with _ | _
    · simp [h, failDoc]
    · rcases hg : env.grobid with m2 | tei
      · simp [h, hg, failDoc]
      · cases ht : optTruthy tei
        · simp [h, hg, ht, failDoc]
        · cases hs : env.teiSections.isEmpty <;> simp [h, hg, ht, hs, failDoc]

/-- The (source, success) view of the Elsevier step and everything after
it. -/
theorem step3_source_success (env : FetchEnv) :
    (fetchStep3 env).map (fun d => (d.source, d.success)) =
      (if env.publisher == some "Elsevier BV" then
        match env.elsevierResp with
        | .error m => .error m
        | .ok xmlText =>
          if !xmlText.isEmpty && !(extractSectionsFromElsevier env.elsevierXml).2.isEmpty then
            .ok ("Elsevier", true)
          else .ok (if ubnTierOk env then ("UBN/GROBID", true) else ("None", false))
      else .ok (if ubnTierOk env then ("UBN/GROBID", true) else ("None", false))) := by
  unfold fetchStep3
  cases hp : env.publisher == some "Elsevier BV"
  case false => simp [Except.map, step4_source_success env]
  case true =>
    rcases hr : env.elsevierResp with m | xmlText
    · simp [Except.map]
    · cases hx : xmlText.isEmpty <;>
        cases hs : (extractSectionsFromElsevier env.elsevierXml).2.isEmpty <;>
          simp [hx, hs, Except.map, step4_source_success env]

/-- C1 (amended): the orchestrator is a strict linear fallback PMC →
PubMed → Elsevier (only for publisher "Elsevier BV") → UBN/open access;
only the PubMed tier is gated on a methods-like section — PMC, Elsevier
and UBN return on any non-empty section list — and an Elsevier transport
error escapes as an exception instead of a `Document`. -/
theorem C1_tier_selection :
    ∀ env : FetchEnv,
      (fetchFullPaperText env).map (fun d => (d.source, d.success)) = tierResultSpec env := by
  intro env
  unfold fetchFullPaperText fetchStep2 tierResultSpec pmcTierOk pubmedTierOk
  cases h1 : optTruthy env.pmcid && optTruthy env.jatsXml && !env.jatsSections.isEmpty
  case true => simp [Except.map]
  case false =>
    cases h2 : optTruthy env.pmid && optTruthy env.pubmedXml &&
        !env.pubmedSections.isEmpty
    case false =>
      simp only [Bool.false_and, Bool.false_eq_true, if_false]
      exact step3_source_success env
    case true =>
      cases h3 : methodsFound env.pubmedSections
      case true => simp [Except.map]
      case false =>
        simp only [Bool.and_false, Bool.false_eq_true, if_false]
        exact step3_source_success env

/-- C1 counterexample: PMC succeeds with only an introduction section —
no methods-like section — yet the orchestrator returns the PMC document
even though the PubMed tier would have qualified under the claimed
minimum-content predicate. -/
theorem C1_counterexample :
    fetchFullPaperText envC1 = .ok docC1 ∧
    docC1.source = "PMC" ∧ docC1.success = true ∧
    methodsFound docC1.sections = false ∧
    pubmedTierOk envC1 = true := by
  exact ⟨rfl, rfl, rfl, by decide, by decide⟩

/-- C1 witness: the tier characterisation evaluated on the concrete
environment of the counterexample. -/
theorem C1_tier_selection_witness :
    (fetchFullPaperText envC1).map (fun d => (d.source, d.success)) = tierResultSpec envC1 :=
  C1_tier_selection envC1

/-- A successful document out of the UBN/GROBID step has the joined full
text and is not an Elsevier document. -/
theorem step4_full_text (env : FetchEnv) (doc : FullPaperText)
    (h : fetchStep4 env = doc) (hs : doc.success = true) :
    doc.full_text = fullTextFromSections doc.sections ∧ doc.source ≠ "Elsevier" := by
  unfold fetchStep4 at h
  split at h
  · subst h; simp [failDoc] at hs
  · subst h; simp [failDoc] at hs
  · split at h
    · subst h; simp [failDoc] at hs
    · split at h
      · split at h
        · subst h; simp [failDoc] at hs
        · subst h; exact ⟨rfl, show "UBN/GROBID" ≠ "Elsevier" by decide⟩
      · subst h; simp [failDoc] at hs

/-- The same for the Elsevier step: a non-Elsevier success joins its
sections; an Elsevier success carries the document-element text. -/
theorem step3_full_text (env : FetchEnv) (doc : FullPaperText)
    (h : fetchStep3 env = .ok doc) (hs : doc.success = true) :
    (doc.source ≠ "Elsevier" → doc.full_text = fullTextFromSections doc.sections) ∧
    (doc.source = "Elsevier" → doc.full_text = (extractSectionsFromElsevier env.elsevierXml).1) := by
  unfold fetchStep3 at h
  split at h
  · split at h
    · exact absurd h (by simp)
    · split at h
      · split at h
        · injection h with h'
          subst h'
          exact ⟨fun hne => absurd rfl hne, fun _ => rfl⟩
        · injection h with h'
          have hh := step4_full_text env doc h' hs
          exact ⟨fun _ => hh.1, fun hce => absurd hce hh.2⟩
      · injection h with h'
        have hh := step4_full_text env doc h' hs
        exact ⟨fun _ => hh.1, fun hce => absurd hce hh.2⟩
  · injection h with h'
    have hh := step4_full_text env doc h' hs
    exact ⟨fun _ => hh.1, fun hce => absurd hce hh.2⟩

/-- C2 (amended): every successful document from the PMC, PubMed or
UBN/GROBID tier has `full_text` equal to the space-join of its non-empty
section texts in order; the Elsevier tier instead returns the
`ce:doc`/`xocs:doc` element's text, computed independently of the
sections. -/
theorem C2_full_text :
    ∀ (env : FetchEnv) (doc : FullPaperText),
      fetchFullPaperText env = .ok doc → doc.success = true →
      (doc.source ≠ "Elsevier" → doc.full_text = fullTextFromSections doc.sections) ∧
      (doc.source = "Elsevier" → doc.full_text = (extractSectionsFromElsevier env.elsevierXml).1) := by
  intro env doc hok hs
  unfold fetchFullPaperText fetchStep2 at hok
  split at hok
  · injection hok with h
    subst h
    exact ⟨fun _ => rfl, fun hsrc => absurd hsrc (show "PMC" ≠ "Elsevier" by decide)⟩
  · split at hok
    · split at hok
      · injection hok with h
        subst h
        exact ⟨fun _ => rfl, fun hsrc => absurd hsrc (show "PubMed" ≠ "Elsevier" by decide)⟩
      · exact step3_full_text env doc hok hs
    · exact step3_full_text env doc hok hs

/-- C2 counterexample: a successful Elsevier document whose `full_text`
(the `ce:doc` element's text) is not the space-join of its non-empty
section texts. -/
theorem C2_counterexample :
    fetchFullPaperText envC2 = .ok docC2 ∧ docC2.success = true ∧
    docC2.source = "Elsevier" ∧
    docC2.full_text ≠ fullTextFromSections docC2.sections := by
  exact ⟨rfl, rfl, rfl, by decide⟩

/-- C2 witness: the amended theorem applied to a concrete successful PMC
fetch. -/
theorem C2_full_text_witness :
    docW2.full_text = fullTextFromSections docW2.sections :=
  (C2_full_text envW2 docW2 rfl rfl).1 (by decide)

/-- A failing UBN/GROBID step yields the empty failure document with a
non-empty message, given the environment's exception messages are
non-empty. -/
theorem step4_failure (env : FetchEnv) (doc : FullPaperText)
    (h : fetchStep4 env = doc) (hs : doc.success = false)
    (hoa : ∀ m, env.oaPdf = .error m → m ≠ "")
    (hgr : ∀ m, env.grobid = .error m → m ≠ "") :
    doc.sections = [] ∧ doc.full_text = [] ∧ doc.source = "None" ∧
      doc.error_message ≠ "" := by
  unfold fetchStep4 at h
  split at h
  · rename_i m heq
    subst h
    refine ⟨rfl, rfl, rfl, ?_⟩
    unfold ubnPdfOutcome at heq
    split at heq
    · exact absurd heq (by simp)
    · split at heq
      · rename_i m' hoaeq
        injection heq with h'
        exact h' ▸ hoa m' hoaeq
      · exact absurd heq (by simp)
      · injection heq with h'
        exact h' ▸ (show "Failed to download PDF." ≠ "" by decide)
  · subst h
    exact ⟨rfl, rfl, rfl, show "'NoneType' object has no attribute 'seek'" ≠ "" by decide⟩
  · split at h
    · rename_i m hgeq
      subst h
      exact ⟨rfl, rfl, rfl, hgr m hgeq⟩
    · split at h
      · split at h
        · subst h
          exact ⟨rfl, rfl, rfl,
            show "Failed to extract sections from GROBID's TEI XML." ≠ "" by decide⟩
        · subst h
          simp at hs
      · subst h
        exact ⟨rfl, rfl, rfl, show "Failed to process PDF with GROBID." ≠ "" by decide⟩

/-- C10: a `success=false` result of the tiered fetch is the
`failDoc`-shaped document — empty sections, empty full text, source
"None" — and its error message is non-empty provided the environment's
own exception messages are (the code-raised messages are fixed non-empty
strings). -/
theorem C10_failure_document :
    ∀ (env : FetchEnv) (doc : FullPaperText),
      fetchFullPaperText env = .ok doc → doc.success = false →
      (∀ m, env.oaPdf = .error m → m ≠ "") →
      (∀ m, env.grobid = .error m → m ≠ "") →
      doc.sections = [] ∧ doc.full_text = [] ∧ doc.source = "None" ∧
        doc.error_message ≠ "" := by
  intro env doc hok hs hoa hgr
  unfold fetchFullPaperText fetchStep2 fetchStep3 at hok
  split at hok
  · injection hok with h; subst h; simp at hs
  · split at hok
    · split at hok
      · injection hok with h; subst h; simp at hs
      · split at hok
        · split at hok
          · exact absurd hok (by simp)
          · split at hok
            · split at hok
              · injection hok with h; subst h; simp at hs
              · injection hok with h
                exact step4_failure env doc h hs hoa hgr
            · injection hok with h
              exact step4_failure env doc h hs hoa hgr
        · injection hok with h
          exact step4_failure env doc h hs hoa hgr
    · split at hok
      · split at hok
        · exact absurd hok (by simp)
        · split at hok
          · split at hok
            · injection hok with h; subst h; simp at hs
            · injection hok with h
              exact step4_failure env doc h hs hoa hgr
          · injection hok with h
            exact step4_failure env doc h hs hoa hgr
      · injection hok with h
        exact step4_failure env doc h hs hoa hgr

/-- C10 witness: the failure-document shape on a run in which UBN raises
and open access has no link. -/
theorem C10_failure_document_witness :
    docW10.sections = [] ∧ docW10.full_text = [] ∧ docW10.source = "None" ∧
      docW10.error_message ≠ "" :=
  C10_failure_document envW10 docW10 rfl rfl
    (fun _ h => Except.noConfusion h) (fun _ h => Except.noConfusion h)

/-- An ethics summary with institutions starts with the Institutions
part. -/
theorem buildEthics_head_inst (i : Str) (is sents : List Str) :
    ∃ tail, buildEthicsSummary (i :: is) sents = 'I' :: tail := by
  cases sents <;> exact ⟨_, rfl⟩

/-- An ethics summary with sentences only starts with the Evidence
part. -/
theorem buildEthics_head_ev (s : Str) (ss : List Str) :
    ∃ tail, buildEthicsSummary [] (s :: ss) = 'E' :: tail :=
  ⟨_, rfl⟩

/-- An in vivo summary with species starts with the Species part. -/
theorem buildInVivo_head_species (sp : String) (rest strains : List String) (sents : List Str) :
    ∃ tail, buildInVivoSummary (sp :: rest) strains sents = 'S' :: tail := by
  cases strains <;> cases sents <;> exact ⟨_, rfl⟩

/-- An in vivo summary with strains only starts with the Strains part. -/
theorem buildInVivo_head_strains (st : String) (rest : List String) (sents : List Str) :
    ∃ tail, buildInVivoSummary [] (st :: rest) sents = 'S' :: tail := by
  cases sents <;> exact ⟨_, rfl⟩

/-- An in vivo summary with sentences only starts with the Evidence
part. -/
theorem buildInVivo_head_ev (s : Str) (ss : List Str) :
    ∃ tail, buildInVivoSummary [] [] (s :: ss) = 'E' :: tail :=
  ⟨_, rfl⟩

/-- The ethics summary is the sentinel exactly when there is nothing to
report. -/
theorem buildEthics_sentinel (insts sents : List Str) :
    buildEthicsSummary insts sents = "No ethics evidence found".data ↔
      (insts = [] ∧ sents = []) := by
  cases insts with
  | nil =>
    cases sents with
    | nil => simp [buildEthicsSummary]
    | cons s ss =>
      obtain ⟨tail, htail⟩ := buildEthics_head_ev s ss
      rw [htail, show "No ethics evidence found".data =
        'N' :: "o ethics evidence found".data from rfl]
      constructor
      · intro h
        injection h with h1 _
        exact absurd h1 (by decide)
      · rintro ⟨-, h⟩
        cases h
  | cons i is =>
    obtain ⟨tail, htail⟩ := buildEthics_head_inst i is sents
    rw [htail, show "No ethics evidence found".data =
      'N' :: "o ethics evidence found".data from rfl]
    constructor
    · intro h
      injection h with h1 _
      exact absurd h1 (by decide)
    · rintro ⟨h, -⟩
      cases h

/-- The in vivo summary is the sentinel exactly when there is nothing to
report. -/
theorem buildInVivo_sentinel (species strains : List String) (sents : List Str) :
    buildInVivoSummary species strains sents = "No in vivo evidence found".data ↔
      (species = [] ∧ strains = [] ∧ sents = []) := by
  cases species with
  | cons sp rest =>
    obtain ⟨tail, htail⟩ := buildInVivo_head_species sp rest strains sents
    rw [htail, show "No in vivo evidence found".data =
      'N' :: "o in vivo evidence found".data from rfl]
    constructor
    · intro h
      injection h with h1 _
      exact absurd h1 (by decide)
    · rintro ⟨h, -, -⟩
      cases h
  | nil =>
    cases strains with
    | cons st rest =>
      obtain ⟨tail, htail⟩ := buildInVivo_head_strains st rest sents
      rw [htail, show "No in vivo evidence found".data =
        'N' :: "o in vivo evidence found".data from rfl]
      constructor
      · intro h
        injection h with h1 _
        exact absurd h1 (by decide)
      · rintro ⟨-, h, -⟩
        cases h
    | nil =>
      cases sents with
      | nil => simp [buildInVivoSummary]
      | cons s ss =>
        obtain ⟨tail, htail⟩ := buildInVivo_head_ev s ss
        rw [htail, show "No in vivo evidence found".data =
          'N' :: "o in vivo evidence found".data from rfl]
        constructor
        · intro h
          injection h with h1 _
          exact absurd h1 (by decide)
        · rintro ⟨-, -, h⟩
          cases h

/-- Summaries are never the empty string. -/
theorem buildEthics_ne_nil (insts sents : List Str) :
    buildEthicsSummary insts sents ≠ [] := by
  cases insts with
  | nil =>
    cases sents with
    | nil => decide
    | cons s ss =>
      obtain ⟨tail, htail⟩ := buildEthics_head_ev s ss
      rw [htail]
      simp
  | cons i is =>
    obtain ⟨tail, htail⟩ := buildEthics_head_inst i is sents
    rw [htail]
    simp

theorem buildInVivo_ne_nil (species strains : List String) (sents : List Str) :
    buildInVivoSummary species strains sents ≠ [] := by
  cases species with
  | cons sp rest =>
    obtain ⟨tail, htail⟩ := buildInVivo_head_species sp rest strains sents
    rw [htail]
    simp
  | nil =>
    cases strains with
    | cons st rest =>
      obtain ⟨tail, htail⟩ := buildInVivo_head_strains st rest sents
      rw [htail]
      simp
    | nil =>
      cases sents with
      | nil => decide
      | cons s ss =>
        obtain ⟨tail, htail⟩ := buildInVivo_head_ev s ss
        rw [htail]
        simp

/-- C7 (amended): the analyzers never fail — the summary is always
non-empty, and it is the fixed sentinel exactly when nothing was
detected; the ethics summary is built from at most the first 3
institutions and first 3 sentences, while the in vivo summary caps only
the sentences at 3 and lists every detected species and strain. -/
theorem C7_summary_shape :
    (∀ insts sents : List Str,
      buildEthicsSummary insts sents = buildEthicsSummary (insts.take 3) (sents.take 3)) ∧
    (∀ (species strains : List String) (sents : List Str),
      buildInVivoSummary species strains sents =
        buildInVivoSummary species strains (sents.take 3)) ∧
    (∀ t : Str, (analyzeEthicsEvidence t).summary = "No ethics evidence found".data ↔
      ((analyzeEthicsEvidence t).institutions_detected = [] ∧
       (analyzeEthicsEvidence t).evidence_sentences = [])) ∧
    (∀ t : Str, (analyzeInVivoEvidence t).summary = "No in vivo evidence found".data ↔
      ((analyzeInVivoEvidence t).species_detected = [] ∧
       (analyzeInVivoEvidence t).strains_detected = [] ∧
       (analyzeInVivoEvidence t).evidence_sentences = [])) ∧
    (∀ t : Str, (analyzeEthicsEvidence t).summary ≠ [] ∧
      (analyzeInVivoEvidence t).summary ≠ []) := by
  refine ⟨?_, ?_, ?_, ?_, ?_⟩
  · intro insts sents
    cases insts <;> cases sents <;> simp [buildEthicsSummary, List.take_take]
  · intro species strains sents
    cases sents <;> simp [buildInVivoSummary, List.take_take]
  · intro t
    rw [show (analyzeEthicsEvidence t).summary =
      buildEthicsSummary (extractInstitutions t) (ethicsAllSentences t) from rfl]
    rw [buildEthics_sentinel]
    rw [show (analyzeEthicsEvidence t).institutions_detected = extractInstitutions t from rfl]
    rw [show (analyzeEthicsEvidence t).evidence_sentences =
      (ethicsAllSentences t).dedup from rfl]
    simp [List.dedup_eq_nil]
  · intro t
    rw [show (analyzeInVivoEvidence t).summary =
      buildInVivoSummary (speciesDetected t) (strainsDetected t) (inVivoAllSentences t) from rfl]
    rw [buildInVivo_sentinel]
    rw [show (analyzeInVivoEvidence t).species_detected = speciesDetected t from rfl]
    rw [show (analyzeInVivoEvidence t).strains_detected = strainsDetected t from rfl]
    rw [show (analyzeInVivoEvidence t).evidence_sentences =
      (inVivoAllSentences t).dedup from rfl]
    simp [List.dedup_eq_nil]
  · intro t
    exact ⟨buildEthics_ne_nil _ _, buildInVivo_ne_nil _ _ _⟩

/-- C7 counterexample: on a text naming four species, the in vivo summary
lists all four — the species list is not capped at the first three. -/
theorem C7_counterexample :
    (analyzeInVivoEvidence textC7).species_detected = ["rat", "mouse", "sheep", "fish"] ∧
    (analyzeInVivoEvidence textC7).species_detected.length = 4 ∧
    (analyzeInVivoEvidence textC7).summary = "Species: rat, mouse, sheep, fish".data := by
  exact ⟨by decide, by decide, by decide⟩

/-- The splitter never returns an empty fragment list. -/
theorem splitAux_ne_nil :
    ∀ xs : Str, (∀ acc, splitSentAux xs acc ≠ []) ∧ splitStart xs ≠ [] := by
  intro xs
  induction xs with
  | nil => exact ⟨fun acc => by simp [splitSentAux], by simp [splitStart]⟩
  | cons c rest ih =>
    constructor
    · intro acc
      cases h : isTerm c
      · simpa [splitSentAux, h] using ih.1 (c :: acc)
      · simp [splitSentAux, h]
    · cases h : isTerm c
      · simpa [splitStart, h] using ih.1 [c]
      · simpa [splitStart, h] using ih.2

/-- Splitting a text that ends in a sentence terminator distributes over
appending more text: the trailing fragment of the first part is closed
and the remainder starts fresh. -/
theorem split_append :
    ∀ xs : Str,
      (∀ acc ys : Str, lastIsTerm xs = true →
        splitSentAux (xs ++ ys) acc = (splitSentAux xs acc).dropLast ++ splitStart ys) ∧
      (∀ ys : Str, lastIsTerm xs = true →
        splitStart (xs ++ ys) = (splitStart xs).dropLast ++ splitStart ys) := by
  intro xs
  induction xs with
  | nil =>
    exact ⟨fun acc ys h => by simp [lastIsTerm] at h, fun ys h => by simp [lastIsTerm] at h⟩
  | cons c rest ih =>
    constructor
    · intro acc ys hterm
      cases rest with
      | nil =>
        have hc : isTerm c = true := by simpa [lastIsTerm] using hterm
        simp [splitSentAux, splitStart, hc, List.dropLast]
      | cons c2 rest2 =>
        have hterm2 : lastIsTerm (c2 :: rest2) = true := by
          simpa [lastIsTerm] using hterm
        cases h : isTerm c
        · simpa [splitSentAux, h] using ih.1 (c :: acc) ys hterm2
        · rw [List.cons_append]
          simp only [splitSentAux, h, if_true]
          rw [ih.2 ys hterm2,
            List.dropLast_cons_of_ne_nil (splitAux_ne_nil (c2 :: rest2)).2,
            List.cons_append]
    · intro ys hterm
      cases rest with
      | nil =>
        have hc : isTerm c = true := by simpa [lastIsTerm] using hterm
        simp [splitStart, hc]
      | cons c2 rest2 =>
        have hterm2 : lastIsTerm (c2 :: rest2) = true := by
          simpa [lastIsTerm] using hterm
        cases h : isTerm c
        · simpa [splitStart, h] using ih.1 [c] ys hterm2
        · simpa [splitStart, h] using ih.2 ys hterm2

/-- The accumulator only decorates the first fragment. -/
theorem splitAux_acc :
    ∀ (xs acc : Str), splitSentAux xs acc =
      (acc.reverse ++ (splitSentAux xs []).headD []) :: (splitSentAux xs []).tail := by
  intro xs
  induction xs with
  | nil => intro acc; simp [splitSentAux]
  | cons c rest ih =>
    intro acc
    cases h : isTerm c
    · simp only [splitSentAux, h, Bool.false_eq_true, if_false]
      rw [ih (c :: acc), ih [c]]
      simp [List.append_assoc]
    · simp [splitSentAux, h]

/-- A leading-space accumulator is invisible after stripping. -/
theorem mapStrip_space (ys : Str) :
    (splitSentAux ys [' ']).map pyStrip = (splitSent ys).map pyStrip := by
  obtain ⟨h0, t0, h⟩ := List.exists_cons_of_ne_nil ((splitAux_ne_nil ys).1 [])
  rw [splitAux_acc ys [' '], splitSent] at *
  rw [h]
  rfl

/-- The kept fragments of a terminator-closed text followed by a space
and more text are the kept fragments of the two parts. -/
theorem stripKeep_append (kws : List Str) (a b : Str) (ha : lastIsTerm a = true) :
    stripKeep kws (a ++ ' ' :: b) = stripKeep kws a ++ stripKeep kws b := by
  have hstart : splitStart (' ' :: b) = splitSentAux b [' '] := rfl
  have hsplit := (split_append a).1 [] (' ' :: b) ha
  have hlast := (split_append a).1 [] [] ha
  rw [List.append_nil] at hlast
  have hdrop : (((splitSentAux a []).dropLast).map pyStrip).filter (sentKeep kws) =
      ((splitSentAux a []).map pyStrip).filter (sentKeep kws) := by
    conv_rhs => rw [hlast]
    rw [List.map_append, List.filter_append]
    rw [show splitStart ([] : Str) = [[]] from rfl]
    rw [show (([[]] : List Str).map pyStrip).filter (sentKeep kws) = [] from rfl]
    rw [List.append_nil]
  unfold stripKeep splitSent
  rw [hsplit, hstart, List.map_append, List.filter_append, hdrop, mapStrip_space, splitSent]

/-- Fragment extraction over a space-join of terminator-closed texts is
the concatenation of the per-text extractions. -/
theorem stripKeep_joinSp (kws : List Str) :
    ∀ ts : List Str, (∀ t ∈ ts, lastIsTerm t = true) →
      stripKeep kws (joinSp ts) = ts.flatMap (stripKeep kws) := by
  intro ts
  induction ts with
  | nil => intro _; rfl
  | cons t ts ih =>
    intro hall
    cases ts with
    | nil => simp [joinSp]
    | cons t2 ts2 =>
      rw [show joinSp (t :: t2 :: ts2) = t ++ ' ' :: joinSp (t2 :: ts2) from rfl]
      rw [stripKeep_append kws t _ (hall t (by simp))]
      rw [ih fun x hx => hall x (by simp [hx])]
      simp

/-- C8 (amended): sentence extraction over the joined sections is not
order-independent in general (sentences and matches span section
boundaries), but when every non-empty section text ends in a sentence
terminator the extracted sentence set is invariant under permuting the
sections. -/
theorem C8_section_order :
    ∀ (sections sections' : List SectionT) (kws : List Str),
      sections.Perm sections' →
      (∀ sec ∈ sections, lastIsTerm sec.text = true ∨ sec.text = []) →
      ∀ x : Str,
        x ∈ extractSentencesWithKeywords (fullTextFromSections sections) kws ↔
          x ∈ extractSentencesWithKeywords (fullTextFromSections sections') kws := by
  intro sections sections' kws hperm hterm x
  have hterm' : ∀ sec ∈ sections', lastIsTerm sec.text = true ∨ sec.text = [] :=
    fun sec hs => hterm sec (hperm.mem_iff.mpr hs)
  have key : ∀ (secs : List SectionT),
      (∀ sec ∈ secs, lastIsTerm sec.text = true ∨ sec.text = []) →
      extractSentencesWithKeywords (fullTextFromSections secs) kws =
        (((secs.map fun s => s.text).filter fun t => !t.isEmpty).flatMap
          (stripKeep kws)).dedup := by
    intro secs hcond
    have hallterm : ∀ t ∈ (secs.map fun s => s.text).filter fun t => !t.isEmpty,
        lastIsTerm t = true := by
      intro t ht
      rw [List.mem_filter] at ht
      obtain ⟨hmem, hne⟩ := ht
      obtain ⟨sec, hsec, rfl⟩ := List.mem_map.mp hmem
      rcases hcond sec hsec with h | h
      · exact h
      · rw [h] at hne
        simp at hne
    rw [show extractSentencesWithKeywords (fullTextFromSections secs) kws =
      (stripKeep kws (joinSp ((secs.map fun s => s.text).filter fun t => !t.isEmpty))).dedup
      from rfl]
    rw [stripKeep_joinSp kws _ hallterm]
  rw [key sections hterm, key sections' hterm']
  have hp2 : (((sections.map fun s => s.text).filter fun t => !t.isEmpty)).Perm
      (((sections'.map fun s => s.text).filter fun t => !t.isEmpty)) :=
    (hperm.map _).filter _
  simp only [List.mem_dedup, List.mem_flatMap]
  constructor
  · rintro ⟨t, ht, hx⟩
    exact ⟨t, hp2.mem_iff.mp ht, hx⟩
  · rintro ⟨t, ht, hx⟩
    exact ⟨t, hp2.mem_iff.mpr ht, hx⟩

/-- C8 witness: the permutation invariance applied to two concrete
period-terminated sections and the keyword "committee". -/
theorem C8_section_order_witness :
    ("An ethics committee approved it".data ∈
      extractSentencesWithKeywords (fullTextFromSections [secC8c, secC8d]) ["committee".data]) ↔
    ("An ethics committee approved it".data ∈
      extractSentencesWithKeywords (fullTextFromSections [secC8d, secC8c]) ["committee".data]) :=
  C8_section_order [secC8c, secC8d] [secC8d, secC8c] ["committee".data]
    (List.Perm.swap secC8d secC8c []) (by decide) "An ethics committee approved it".data

/-- C8 counterexample: permuting two sections whose texts do not end in
terminators changes the deduplicated keyword set — the injection-route
match "intraperitoneal injection" exists only in one concatenation
order. -/
theorem C8_counterexample :
    [secC8a, secC8b].Perm [secC8b, secC8a] ∧
    "intraperitoneal".data ∈
      (analyzeInVivoEvidence (fullTextFromSections [secC8a, secC8b])).in_vivo_keywords ∧
    "intraperitoneal".data ∉
      (analyzeInVivoEvidence (fullTextFromSections [secC8b, secC8a])).in_vivo_keywords := by
  exact ⟨List.Perm.swap secC8b secC8a [], by decide, by decide⟩
